import Mathlib

/-!
Verification of the document-to-table projection engine of this repository
(`eland/frame.py` and `eland/ml/ml_model.py`).

The embedding follows the Python source.  The `Mappings` class (schema
snapshot) is referenced by `frame.py` but its code is not part of the
repository snapshot, so it is modelled from the specification (§4.1).
-/

set_option autoImplicit false

namespace Eland

/-! ## Schema snapshot (`Mappings`) -/

/-- Tabular dtypes of the schema snapshot (spec §3): the pandas dtype a field
maps to.  `datetime` is the only dtype that triggers value coercion in
`flatten_dict`. -/
inductive Dtype where
  | int
  | float
  | bool
  | string
  | datetime
  | object
  deriving DecidableEq, Repr

/-- Modelled from the spec: field descriptor of a Schema Snapshot (spec §3):
`{ projectable, tabularDtype, aggregatable }`. -/
structure FieldDescriptor where
  projectable : Bool
  tabularDtype : Dtype
  aggregatable : Bool
  deriving DecidableEq, Repr

/-- Modelled from the spec: the `Mappings` object of the source (its class is
outside the repository snapshot).  An ordered mapping from fully qualified
field name to its descriptor (spec §3, "Schema Snapshot"). -/
structure Mappings where
  fields : List (String × FieldDescriptor)
  deriving DecidableEq, Repr

/-- Error kinds of the spec (§7).  The source realises `UnknownColumnError`
as `TypeError('Column does not exist: ...')` in `DataFrame.__getitem__` and
as the narrowing failure of `Mappings`. -/
inductive Err where
  | unknownColumn (name : String)
  deriving DecidableEq, Repr

/-- Modelled from the spec: `projectableFields(snapshot)` (spec §4.1), the
source's `Mappings.source_fields()`: the projectable field names in snapshot
order. -/
def Mappings.source_fields (m : Mappings) : List String :=
  (m.fields.filter (fun p => p.2.projectable)).map Prod.fst

/-- Modelled from the spec: the source's `Mappings.is_source_field(name)`. -/
def Mappings.is_source_field (m : Mappings) (name : String) : Bool :=
  m.source_fields.contains name

/-- Modelled from the spec: `dtypeOf(snapshot, fieldPath)` (spec §4.1), the
source's `Mappings.source_field_pd_dtype(name)`: returns
`(isProjectable, dtype)`; a name that is not a projectable field reports
`(false, object)`. -/
def Mappings.source_field_pd_dtype (m : Mappings) (name : String) : Bool × Dtype :=
  match m.fields.lookup name with
  | some d => if d.projectable then (true, d.tabularDtype) else (false, Dtype.object)
  | none => (false, Dtype.object)

/-- Modelled from the spec: `numericAggregatableFields(snapshot)` (spec §4.1),
the source's `Mappings.numeric_source_fields()`: projectable, aggregatable
fields of numeric dtype, in snapshot order. -/
def Mappings.numeric_source_fields (m : Mappings) : List String :=
  (m.fields.filter (fun p =>
    p.2.projectable && p.2.aggregatable &&
      (p.2.tabularDtype == Dtype.int || p.2.tabularDtype == Dtype.float))).map Prod.fst

/-- Modelled from the spec: `narrow(snapshot, columnNames)` (spec §4.1), the
source's `ed.Mappings(mappings=parent, columns=columns)` constructor call:
fails with `UnknownColumnError` if any requested name is not a projectable
field of the parent, otherwise keeps exactly the requested fields in parent
order. -/
def Mappings.narrow (m : Mappings) (columns : List String) : Except Err Mappings :=
  match columns.find? (fun c => !(m.is_source_field c)) with
  | some c => Except.error (Err.unknownColumn c)
  | none => Except.ok ⟨m.fields.filter (fun p => columns.contains p.1)⟩

/-! ## Raw documents -/

/-- A raw document value (`_source` of a hit): the Python values traversed by
`flatten_dict` — scalars, keyed mappings (`dict`, in insertion order) and
sequences (`list`).  `datetime` represents the result of `pd.to_datetime`. -/
inductive Doc where
  | null
  | str (s : String)
  | int (n : Int)
  | datetime (s : String)
  | obj (fields : List (String × Doc))
  | arr (elems : List Doc)

/-- Python `pd.to_datetime(x)`: parse a raw value into the canonical date-time
representation (frame.py line 206). -/
def to_datetime : Doc → Doc
  | Doc.str s => Doc.datetime s
  | x => x

/-- The dtype coercion of `flatten` (frame.py lines 204-206): for now just
datetime. -/
def coerce (pd_dtype : Dtype) (x : Doc) : Doc :=
  if pd_dtype = Dtype.datetime then to_datetime x else x

/-- The `(is_source_field, pd_dtype)` lookup at the head of `flatten`
(frame.py lines 189-193): the empty path (root) is not a source field;
otherwise the trailing `"."` is stripped and the mappings are consulted. -/
def lookup_sf (m : Mappings) (name : String) : Bool × Dtype :=
  if name = "" then (false, Dtype.object)
  else m.source_field_pd_dtype (name.dropRight 1)

/-- The list-coalescing merge of `flatten` (frame.py lines 210-216): a second
value for a field wraps the existing scalar into a two-element list, further
values append. -/
def mergeValue (old x : Doc) : Doc :=
  match old with
  | Doc.arr l => Doc.arr (l ++ [x])
  | v => Doc.arr [v, x]

/-- One emit step of `flatten` into the output mapping `out` (frame.py lines
210-216): a fresh field is set to the bare value (at the end, preserving
insertion order); an existing field is coalesced in place via `mergeValue`. -/
def outInsert (out : List (String × Doc)) (field_name : String) (x : Doc) :
    List (String × Doc) :=
  if out.any (fun p => p.1 == field_name) then
    out.map (fun p => if p.1 == field_name then (p.1, mergeValue p.2 x) else p)
  else out ++ [(field_name, x)]

mutual

/-- The inner `flatten(x, name)` of `flatten_dict` (frame.py lines 186-216),
with the mutated closure variable `out` threaded explicitly.  Branches, in
source order: a non-source-field `dict` recurses into each child extending
the path; a non-source-field `list` recurses into each element with the same
path; a source field is coerced and emitted; any other value is ignored. -/
def flatten (m : Mappings) (x : Doc) (name : String) (out : List (String × Doc)) :
    List (String × Doc) :=
  if (lookup_sf m name).1 then
    outInsert out (name.dropRight 1) (coerce (lookup_sf m name).2 x)
  else
    match x with
    | Doc.obj fs => flattenFields m fs name out
    | Doc.arr es => flattenElems m es name out
    | _ => out

/-- The `for a in x: flatten(x[a], name + a + '.')` loop over a `dict`
(frame.py lines 196-197). -/
def flattenFields (m : Mappings) (fs : List (String × Doc)) (name : String)
    (out : List (String × Doc)) : List (String × Doc) :=
  match fs with
  | [] => out
  | (a, v) :: rest => flattenFields m rest name (flatten m v (name ++ a ++ ".") out)

/-- The `for a in x: flatten(a, name)` loop over a `list` (frame.py lines
199-200): arrays do not extend the path. -/
def flattenElems (m : Mappings) (es : List Doc) (name : String)
    (out : List (String × Doc)) : List (String × Doc) :=
  match es with
  | [] => out
  | v :: rest => flattenElems m rest name (flatten m v name out)

end

/-- Source `flatten_dict(y)` (frame.py lines 183-220): flatten one raw document into
an ordered mapping from column name to scalar-or-list value. -/
def flatten_dict (m : Mappings) (y : Doc) : List (String × Doc) :=
  flatten m y "" []

/-! ### The emission sequence of a traversal

`flatten` touches its output mapping only in the emit branch, so the final
mapping is the left fold of `outInsert` over the sequence of
`(field, coerced value)` emissions in traversal order.  `emitted` computes
that sequence; the bridge lemma `flatten_eq_foldOut` proves the equivalence.
This gives a way to speak about how often a field "occurs" in a document. -/

mutual

/-- The `(field_name, coerced value)` pairs emitted by `flatten m x name`,
in document traversal order. -/
def emitted (m : Mappings) (x : Doc) (name : String) : List (String × Doc) :=
  if (lookup_sf m name).1 then
    [(name.dropRight 1, coerce (lookup_sf m name).2 x)]
  else
    match x with
    | Doc.obj fs => emittedFields m fs name
    | Doc.arr es => emittedElems m es name
    | _ => []

/-- Emissions of the `dict` loop. -/
def emittedFields (m : Mappings) (fs : List (String × Doc)) (name : String) :
    List (String × Doc) :=
  match fs with
  | [] => []
  | (a, v) :: rest => emitted m v (name ++ a ++ ".") ++ emittedFields m rest name

/-- Emissions of the `list` loop. -/
def emittedElems (m : Mappings) (es : List Doc) (name : String) :
    List (String × Doc) :=
  match es with
  | [] => []
  | v :: rest => emitted m v name ++ emittedElems m rest name

end

/-- Fold a sequence of emissions into an output mapping. -/
def foldOut (out : List (String × Doc)) (l : List (String × Doc)) :
    List (String × Doc) :=
  l.foldl (fun o p => outInsert o p.1 p.2) out

theorem foldOut_append (out : List (String × Doc)) (l1 l2 : List (String × Doc)) :
    foldOut out (l1 ++ l2) = foldOut (foldOut out l1) l2 := by
  simp [foldOut, List.foldl_append]

mutual

theorem flatten_eq_foldOut (m : Mappings) (x : Doc) (name : String)
    (out : List (String × Doc)) :
    flatten m x name out = foldOut out (emitted m x name) := by
  cases x with
  | obj fs =>
    by_cases h : (lookup_sf m name).1 <;>
      simp [flatten, emitted, h, foldOut, flattenFields_eq_foldOut m fs name out]
  | arr es =>
    by_cases h : (lookup_sf m name).1 <;>
      simp [flatten, emitted, h, foldOut, flattenElems_eq_foldOut m es name out]
  | null => by_cases h : (lookup_sf m name).1 <;> simp [flatten, emitted, h, foldOut]
  | str s => by_cases h : (lookup_sf m name).1 <;> simp [flatten, emitted, h, foldOut]
  | int n => by_cases h : (lookup_sf m name).1 <;> simp [flatten, emitted, h, foldOut]
  | datetime s =>
    by_cases h : (lookup_sf m name).1 <;> simp [flatten, emitted, h, foldOut]

theorem flattenFields_eq_foldOut (m : Mappings) (fs : List (String × Doc))
    (name : String) (out : List (String × Doc)) :
    flattenFields m fs name out = foldOut out (emittedFields m fs name) := by
  match fs with
  | [] => rw [flattenFields, emittedFields]; rfl
  | (a, v) :: rest =>
    rw [flattenFields, emittedFields, foldOut_append,
      ← flatten_eq_foldOut m v (name ++ a ++ ".") out,
      flattenFields_eq_foldOut m rest name]

theorem flattenElems_eq_foldOut (m : Mappings) (es : List Doc)
    (name : String) (out : List (String × Doc)) :
    flattenElems m es name out = foldOut out (emittedElems m es name) := by
  match es with
  | [] => rw [flattenElems, emittedElems]; rfl
  | v :: rest =>
    rw [flattenElems, emittedElems, foldOut_append,
      ← flatten_eq_foldOut m v name out,
      flattenElems_eq_foldOut m rest name]

end

theorem flatten_dict_eq_foldOut (m : Mappings) (y : Doc) :
    flatten_dict m y = foldOut [] (emitted m y "") :=
  flatten_eq_foldOut m y "" []

/-! ### Lookup lemmas about the output mapping -/

theorem lookup_cons_self (f : String) (b : Doc) (t : List (String × Doc)) :
    List.lookup f ((f, b) :: t) = some b := by
  simp [List.lookup_cons]

theorem lookup_cons_ne (f k : String) (b : Doc) (t : List (String × Doc))
    (h : f ≠ k) : List.lookup f ((k, b) :: t) = List.lookup f t := by
  simp [List.lookup_cons, beq_false_of_ne h]

theorem any_eq_false_of_lookup_none (out : List (String × Doc)) (f : String)
    (h : List.lookup f out = none) : out.any (fun p => p.1 == f) = false := by
  induction out with
  | nil => rfl
  | cons p t ih =>
    obtain ⟨k, b⟩ := p
    by_cases hk : f = k
    · subst hk; rw [lookup_cons_self] at h; exact absurd h (by simp)
    · rw [lookup_cons_ne f k b t hk] at h
      simp [List.any_cons, ih h, beq_iff_eq, Ne.symm hk]

theorem lookup_append_single_self (out : List (String × Doc)) (f : String) (x : Doc)
    (h : List.lookup f out = none) : List.lookup f (out ++ [(f, x)]) = some x := by
  induction out with
  | nil => simp [lookup_cons_self]
  | cons p t ih =>
    obtain ⟨k, b⟩ := p
    by_cases hk : f = k
    · subst hk; rw [lookup_cons_self] at h; exact absurd h (by simp)
    · rw [lookup_cons_ne f k b t hk] at h
      rw [List.cons_append, lookup_cons_ne f k b _ hk]
      exact ih h

theorem lookup_append_single_ne (out : List (String × Doc)) (k f : String) (x : Doc)
    (h : k ≠ f) : List.lookup f (out ++ [(k, x)]) = List.lookup f out := by
  induction out with
  | nil => simp [lookup_cons_ne f k x [] (Ne.symm h)]
  | cons p t ih =>
    obtain ⟨a, b⟩ := p
    by_cases ha : f = a
    · subst ha; rw [List.cons_append, lookup_cons_self, lookup_cons_self]
    · rw [List.cons_append, lookup_cons_ne f a b _ ha, lookup_cons_ne f a b t ha]
      exact ih

theorem lookup_map_merge_ne (out : List (String × Doc)) (k f : String) (x : Doc)
    (h : k ≠ f) :
    List.lookup f (out.map fun p => if p.1 == k then (p.1, mergeValue p.2 x) else p) =
      List.lookup f out := by
  induction out with
  | nil => rfl
  | cons p t ih =>
    obtain ⟨a, b⟩ := p
    rw [List.map_cons]
    by_cases hak : a = k
    · have hfa : f ≠ a := fun hfa => h (hak ▸ hfa ▸ rfl)
      rw [show (if ((a, b).1 == k) then ((a, b).1, mergeValue (a, b).2 x) else (a, b)) =
          (a, mergeValue b x) by simp [hak]]
      rw [lookup_cons_ne f a _ _ hfa, lookup_cons_ne f a b t hfa]
      exact ih
    · rw [show (if ((a, b).1 == k) then ((a, b).1, mergeValue (a, b).2 x) else (a, b)) =
          (a, b) by simp [beq_iff_eq, hak]]
      by_cases hfa : f = a
      · subst hfa; rw [lookup_cons_self, lookup_cons_self]
      · rw [lookup_cons_ne f a b _ hfa, lookup_cons_ne f a b t hfa]
        exact ih

theorem lookup_outInsert_ne (out : List (String × Doc)) (k f : String) (x : Doc)
    (h : k ≠ f) : List.lookup f (outInsert out k x) = List.lookup f out := by
  rw [outInsert]
  by_cases ha : out.any (fun p => p.1 == k)
  · rw [if_pos ha]; exact lookup_map_merge_ne out k f x h
  · rw [if_neg ha]; exact lookup_append_single_ne out k f x h

theorem foldOut_lookup_no_emission (t out : List (String × Doc)) (f : String)
    (h : t.filter (fun p => p.1 == f) = []) :
    List.lookup f (foldOut out t) = List.lookup f out := by
  induction t generalizing out with
  | nil => rfl
  | cons p t ih =>
    obtain ⟨k, x⟩ := p
    by_cases hk : k = f
    · subst hk; simp [List.filter_cons] at h
    · rw [List.filter_cons, if_neg (by simp [beq_iff_eq, hk])] at h
      show List.lookup f (foldOut (outInsert out k x) t) = List.lookup f out
      rw [ih _ h, lookup_outInsert_ne out k f x hk]

theorem foldOut_lookup_single_emission (t out : List (String × Doc)) (f : String)
    (v : Doc) (hout : List.lookup f out = none)
    (h : t.filter (fun p => p.1 == f) = [(f, v)]) :
    List.lookup f (foldOut out t) = some v := by
  induction t generalizing out with
  | nil => simp at h
  | cons p t ih =>
    obtain ⟨k, x⟩ := p
    by_cases hk : k = f
    · rw [List.filter_cons, if_pos (by simp [hk])] at h
      have hx : (k, x) = (f, v) := (List.cons_eq_cons.mp h).1
      have hxv : x = v := congrArg Prod.snd hx
      have ht : t.filter (fun p => p.1 == f) = [] := (List.cons_eq_cons.mp h).2
      show List.lookup f (foldOut (outInsert out k x) t) = some v
      rw [hk, hxv, outInsert,
        if_neg (by simp [any_eq_false_of_lookup_none out f hout])]
      rw [foldOut_lookup_no_emission t _ f ht]
      exact lookup_append_single_self out f v hout
    · rw [List.filter_cons, if_neg (by simp [beq_iff_eq, hk])] at h
      show List.lookup f (foldOut (outInsert out k x) t) = some v
      exact ih _ (by rw [lookup_outInsert_ne out k f x hk]; exact hout) h

theorem flatten_dict_single_emission (m : Mappings) (y : Doc) (f : String) (v : Doc)
    (h : (emitted m y "").filter (fun p => p.1 == f) = [(f, v)]) :
    List.lookup f (flatten_dict m y) = some v := by
  rw [flatten_dict_eq_foldOut]
  exact foldOut_lookup_single_emission _ _ _ _ rfl h

/-! ## External collaborator interfaces -/

/-- One hit of a search response; `_source` is the raw document. -/
structure Hit where
  _source : Doc

/-- The `results['hits']['hits']` shape of `self.client.search`. -/
structure SearchResults where
  hits : List Hit

/-- One named aggregation bucket of the response.  `stat` is direct key
access (`bucket['count']`, `bucket['avg']`, ...), `values` is the nested
`bucket['values'][percentile]` access of a percentiles bucket; a statistic
the store could not compute is `none` (null). -/
structure AggBucket where
  stat : String → Option Rat
  values : String → Option Rat

/-- An aggregation response: `response.aggregations[name]`. -/
structure AggResponse where
  aggregations : String → AggBucket

/-- The two aggregation primitives requested per numeric field by
`describe` (frame.py lines 259-261). -/
inductive MetricKind where
  | extended_stats
  | percentiles

/-- The aggregation request built by the `describe` loop (frame.py lines
259-261): for every field, an `extended_stats` metric and a `percentiles`
metric, keyed by deterministic field-qualified names. -/
def buildStatsRequest (fields : List String) : List (String × MetricKind × String) :=
  fields.flatMap (fun field =>
    [("extended_stats_" ++ field, MetricKind.extended_stats, field),
     ("percentiles_" ++ field, MetricKind.percentiles, field)])

/-- One external query call issued to the store. -/
inductive ESCall where
  | search (index : String) (size : Nat)
  | count (index : String)
  | aggregations (index : String) (request : List (String × MetricKind × String))

/-- The external query collaborator (`self.client`): an environment giving,
for each index pattern, the search hits, the total document count, and the
aggregation response. -/
structure Client where
  search : String → Nat → SearchResults
  count : String → Nat
  execute : String → List (String × MetricKind × String) → AggResponse

/-! ## The `DataFrame` table proxy -/

/-- The `eland.DataFrame` table proxy (frame.py lines 35-94): a client, an
index pattern, a schema snapshot and a list of pending operations (opaque to
every method under verification; only stored by `__init__`). -/
structure DataFrame where
  client : Client
  index_pattern : String
  mappings : Mappings
  operations : List String

/-- Source `DataFrame.columns` (frame.py lines 302-304). -/
def DataFrame.columns (df : DataFrame) : List String :=
  df.mappings.source_fields

/-- Source `DataFrame.__len__` (frame.py lines 330-334): the external row count. -/
def DataFrame.len (df : DataFrame) : Nat :=
  df.client.count df.index_pattern

/-- Source `DataFrame.shape` (frame.py lines 286-300). -/
def DataFrame.shape (df : DataFrame) : Nat × Nat :=
  (df.len, df.columns.length)

/-- A table fragment: each row is the ordered column-to-cell sequence;
`none` is a null cell (pandas `NaN`/`None`). -/
abbrev Fragment := List (List (String × Option Doc))

/-- The column set of `pd.DataFrame(data=rows)`: the union of the rows'
keys, in first-appearance order. -/
def unionKeys (rows : List (List (String × Doc))) : List String :=
  rows.foldl
    (fun acc row =>
      row.foldl (fun acc2 p => if acc2.contains p.1 then acc2 else acc2 ++ [p.1]) acc)
    []

/-- Source `DataFrame._es_results_to_pandas` (frame.py lines 96-245): flatten every
hit's `_source`, build the intermediate frame (a cell is null when the row
lacks the column), add every mapping column missing from the returned set as
a null column (the discarded `astype` call of line 240 has no effect), and
reorder the columns of every row to mapping order (`df = df[self.columns]`). -/
def DataFrame.es_results_to_pandas (df : DataFrame) (results : SearchResults) :
    Fragment :=
  let rows := results.hits.map (fun hit => flatten_dict df.mappings hit._source)
  let dfColumns := unionKeys rows
  let missing_columns := df.columns.filter (fun c => !(dfColumns.contains c))
  rows.map (fun row =>
    df.columns.map (fun c =>
      (c, if missing_columns.contains c then (none : Option Doc) else List.lookup c row)))

/-- Source `DataFrame.head` (frame.py lines 247-250), paired with the external
calls the method issues. -/
def DataFrame.head (df : DataFrame) (n : Nat) : Fragment × List ESCall :=
  (df.es_results_to_pandas (df.client.search df.index_pattern n),
   [ESCall.search df.index_pattern n])

/-- The eight statistics extracted per field from the aggregation response
(frame.py lines 268-276), in row order
`count, mean, std, min, 25%, 50%, 75%, max`. -/
def statsValues (response : AggResponse) (field : String) : List (Option Rat) :=
  [(response.aggregations ("extended_stats_" ++ field)).stat "count",
   (response.aggregations ("extended_stats_" ++ field)).stat "avg",
   (response.aggregations ("extended_stats_" ++ field)).stat "std_deviation",
   (response.aggregations ("extended_stats_" ++ field)).stat "min",
   (response.aggregations ("percentiles_" ++ field)).values "25.0",
   (response.aggregations ("percentiles_" ++ field)).values "50.0",
   (response.aggregations ("percentiles_" ++ field)).values "75.0",
   (response.aggregations ("extended_stats_" ++ field)).stat "max"]

/-- The result assembly of `describe` (frame.py lines 265-282): a field is
kept only if `values.count(None) < len(values)`, i.e. dropped exactly when
all eight statistics are null.  The row labels of the resulting statistics
table are `count, mean, std, min, 25%, 50%, 75%, max` by position. -/
def describeResults (response : AggResponse) (fields : List String) :
    List (String × List (Option Rat)) :=
  fields.filterMap (fun field =>
    let values := statsValues response field
    if values.count none < values.length then some (field, values) else none)

/-- Source `DataFrame.describe` (frame.py lines 252-284), paired with the external
calls the method issues. -/
def DataFrame.describe (df : DataFrame) :
    List (String × List (Option Rat)) × List ESCall :=
  let numeric_source_fields := df.mappings.numeric_source_fields
  let request := buildStatsRequest numeric_source_fields
  let response := df.client.execute df.index_pattern request
  (describeResults response numeric_source_fields,
   [ESCall.aggregations df.index_pattern request])

/-- A Python subscript argument to `DataFrame.__getitem__`: a string, a
tuple of strings, or a value of another type (the code names no other
supported form; an `int` or a `list` falls through). -/
inductive Item where
  | str (s : String)
  | tuple (ss : List String)
  | int (n : Int)
  | list (l : List String)

/-- Source `DataFrame.__getitem__` (frame.py lines 306-328): a string subscript is
checked against the mappings and raises `TypeError('Column does not exist')`
(the spec's `UnknownColumnError`) if unknown; a tuple subscript is taken
as-is; any other subscript leaves `columns` empty.  A non-empty `columns`
list builds narrowed mappings and returns a new `DataFrame`; otherwise the
method returns `None`.  No branch touches `self.client`, so the call list is
empty. -/
def DataFrame.getitem (df : DataFrame) (item : Item) :
    Except Err (Option DataFrame) × List ESCall :=
  let columns : Except Err (List String) :=
    match item with
    | Item.str s =>
        if !(df.mappings.is_source_field s) then Except.error (Err.unknownColumn s)
        else Except.ok [s]
    | Item.tuple ss => Except.ok ss
    | Item.int _ => Except.ok []
    | Item.list _ => Except.ok []
  match columns with
  | Except.error e => (Except.error e, [])
  | Except.ok cols =>
    if 0 < cols.length then
      match df.mappings.narrow cols with
      | Except.error e => (Except.error e, [])
      | Except.ok m2 =>
        (Except.ok (some ⟨df.client, df.index_pattern, m2, []⟩), [])
    else (Except.ok none, [])

/-! ### Accessors as state transformers

None of `head`, `describe`, `shape`, `__getitem__` assigns to `self`, so
each method, read as a transformer of the proxy state, returns the proxy
unchanged; these wrappers record that statement-by-statement reading. -/

def DataFrame.head_st (df : DataFrame) (n : Nat) :
    (Fragment × List ESCall) × DataFrame :=
  (df.head n, df)

def DataFrame.describe_st (df : DataFrame) :
    (List (String × List (Option Rat)) × List ESCall) × DataFrame :=
  (df.describe, df)

def DataFrame.shape_st (df : DataFrame) : (Nat × Nat) × DataFrame :=
  (df.shape, df)

def DataFrame.getitem_st (df : DataFrame) (item : Item) :
    (Except Err (Option DataFrame) × List ESCall) × DataFrame :=
  (df.getitem item, df)

/-! ## `MLModel.delete_model` (`eland/ml/ml_model.py`) -/

/-- An error reported by the store for a model-management call; `notFound`
is HTTP 404 (`elasticsearch.NotFoundError`). -/
inductive ESErr where
  | notFound
  | transport (status : Nat)
  deriving DecidableEq

/-- The HTTP status of an error. -/
def ESErr.status : ESErr → Nat
  | ESErr.notFound => 404
  | ESErr.transport s => s

/-- The ML client: the raw outcome of the delete-trained-model endpoint per
model id, before any transport-level `ignore` handling. -/
structure MLClient where
  deleteTrainedModelRaw : String → Except ESErr Unit

/-- Call `client.ml.delete_trained_model(model_id=..., ignore=(404,))`:
elasticsearch-py suppresses an error whose HTTP status is in `ignore`. -/
def deleteTrainedModel (c : MLClient) (model_id : String) (ignore : List Nat) :
    Except ESErr Unit :=
  match c.deleteTrainedModelRaw model_id with
  | Except.ok u => Except.ok u
  | Except.error e =>
    if ignore.contains e.status then Except.ok () else Except.error e

/-- The `MLModel` handle (ml_model.py lines 9-35). -/
structure MLModel where
  _client : MLClient
  _model_id : String

/-- Source `MLModel.delete_model` (ml_model.py lines 37-46): call the endpoint with
`ignore=(404,)` and additionally swallow `elasticsearch.NotFoundError`
(`except ... : pass`). -/
def MLModel.delete_model (m : MLModel) : Except ESErr Unit :=
  match deleteTrainedModel m._client m._model_id [404] with
  | Except.ok u => Except.ok u
  | Except.error e =>
    if e = ESErr.notFound then Except.ok () else Except.error e

/-! ## Concrete fixtures (for witnesses and counterexamples) -/

/-- A projectable keyword field. -/
def descKeyword : FieldDescriptor := ⟨true, Dtype.string, false⟩

/-- A projectable, aggregatable integer field. -/
def descNumeric : FieldDescriptor := ⟨true, Dtype.int, true⟩

/-- The mapping of the nested example of frame.py lines 111-158: `group` is
a keyword, `user` is nested with keyword leaves `user.first`, `user.last`. -/
def mGroup : Mappings :=
  ⟨[("group", descKeyword), ("user.first", descKeyword), ("user.last", descKeyword)]⟩

/-- One `user` sub-document of the nested example. -/
def userDoc (first last : String) : Doc :=
  Doc.obj [("first", Doc.str first), ("last", Doc.str last)]

/-- The nested example document with arbitrary payload values. -/
def nestedDoc (g f1 l1 f2 l2 : String) : Doc :=
  Doc.obj [("group", Doc.str g), ("user", Doc.arr [userDoc f1 l1, userDoc f2 l2])]

/-- The literal nested example document of frame.py lines 135-148. -/
def amsterdamDoc : Doc :=
  nestedDoc "amsterdam" "John" "Smith" "Alice" "White"

/-- An aggregation bucket with every statistic null. -/
def nullBucket : AggBucket := ⟨fun _ => none, fun _ => none⟩

/-- An aggregation response in which `rating` has `count = 0` and every
other statistic null. -/
def respRatingCountZero : AggResponse :=
  ⟨fun name =>
    if name == "extended_stats_rating" then
      ⟨fun k => if k == "count" then some 0 else none, fun _ => none⟩
    else nullBucket⟩

/-- An aggregation response in which every statistic of every field is
null. -/
def respAllNull : AggResponse := ⟨fun _ => nullBucket⟩

/-- A client over an index holding exactly `amsterdamDoc`. -/
def clientGroup : Client :=
  ⟨fun _ _ => ⟨[⟨amsterdamDoc⟩]⟩, fun _ => 1, fun _ _ => respAllNull⟩

/-- The proxy for the nested example. -/
def dfGroup : DataFrame := ⟨clientGroup, "reviews", mGroup, []⟩

/-- A client whose aggregation response is `respRatingCountZero`. -/
def clientRatingCountZero : Client :=
  ⟨fun _ _ => ⟨[]⟩, fun _ => 0, fun _ _ => respRatingCountZero⟩

/-- A proxy whose only mapped field is the numeric `rating`. -/
def dfRatingCountZero : DataFrame :=
  ⟨clientRatingCountZero, "reviews", ⟨[("rating", descNumeric)]⟩, []⟩

/-! ## Claims -/

/-- C3: flattening a document with a repeated nested sub-structure yields
one row in which each leaf sub-field is one flat column holding the ordered
list of all occurrences in document traversal order: for any payload values,
`group = g`, `user.first = [f1, f2]`, `user.last = [l1, l2]`. -/
theorem flatten_multi_value_coalescing (g f1 l1 f2 l2 : String) :
    flatten_dict mGroup (nestedDoc g f1 l1 f2 l2) =
      [("group", Doc.str g),
       ("user.first", Doc.arr [Doc.str f1, Doc.str f2]),
       ("user.last", Doc.arr [Doc.str l1, Doc.str l2])] := rfl

/-- C6: a projectable leaf field that is emitted exactly once during the
flattening traversal is mapped to its bare (coerced) value — in particular a
scalar is never wrapped into a single-element list. -/
theorem flatten_single_occurrence_bare (m : Mappings) (y : Doc) (f : String)
    (v : Doc) (h : (emitted m y "").filter (fun p => p.1 == f) = [(f, v)]) :
    List.lookup f (flatten_dict m y) = some v ∧
      ∀ w : Doc, Doc.arr [w] ≠ v →
        List.lookup f (flatten_dict m y) ≠ some (Doc.arr [w]) := by
  have h1 := flatten_dict_single_emission m y f v h
  refine ⟨h1, fun w hw hcontra => ?_⟩
  rw [h1] at hcontra
  exact hw (Option.some.inj hcontra).symm

/-- Witness for C6 at the nested example: `group` occurs once and stays the
bare string. -/
theorem flatten_single_occurrence_bare_witness :
    List.lookup "group" (flatten_dict mGroup amsterdamDoc) =
        some (Doc.str "amsterdam") ∧
      ∀ w : Doc, Doc.arr [w] ≠ Doc.str "amsterdam" →
        List.lookup "group" (flatten_dict mGroup amsterdamDoc) ≠
          some (Doc.arr [w]) :=
  flatten_single_occurrence_bare mGroup amsterdamDoc "group"
    (Doc.str "amsterdam") rfl

/-- C4: every row of a `head` fragment lists its columns exactly in the
schema's projectable-field order, whatever fields the source documents
contained. -/
theorem head_column_order (df : DataFrame) (n : Nat)
    (row : List (String × Option Doc)) (h : row ∈ (df.head n).1) :
    row.map Prod.fst = df.columns := by
  simp only [DataFrame.head, DataFrame.es_results_to_pandas] at h
  obtain ⟨fr, _, rfl⟩ := List.mem_map.mp h
  rw [List.map_map]
  exact List.map_id df.columns

/-- The flattened, reconciled row `head` produces for `amsterdamDoc`. -/
def amsterdamRow : List (String × Option Doc) :=
  [("group", some (Doc.str "amsterdam")),
   ("user.first", some (Doc.arr [Doc.str "John", Doc.str "Alice"])),
   ("user.last", some (Doc.arr [Doc.str "Smith", Doc.str "White"]))]

/-- Witness for C4 at the nested example. -/
theorem head_column_order_witness :
    amsterdamRow.map Prod.fst = dfGroup.columns :=
  head_column_order dfGroup 5 amsterdamRow (List.mem_singleton_self amsterdamRow)

/-- C5: a field declared projectable in the schema but absent from every
returned document appears, with a null value, in every row of the fragment
`head` produces. -/
theorem head_null_fill (df : DataFrame) (n : Nat) (c : String)
    (hc : c ∈ df.columns)
    (habs : ∀ hit ∈ (df.client.search df.index_pattern n).hits,
      List.lookup c (flatten_dict df.mappings hit._source) = none)
    (row : List (String × Option Doc)) (hrow : row ∈ (df.head n).1) :
    (c, (none : Option Doc)) ∈ row := by
  simp only [DataFrame.head, DataFrame.es_results_to_pandas] at hrow
  obtain ⟨fr, hfr, rfl⟩ := List.mem_map.mp hrow
  obtain ⟨hit, hhit, rfl⟩ := List.mem_map.mp hfr
  apply List.mem_map.mpr
  refine ⟨c, hc, ?_⟩
  split
  · rfl
  · rw [habs hit hhit]

/-- A two-field schema `a`, `b`. -/
def mAB : Mappings := ⟨[("a", descKeyword), ("b", descKeyword)]⟩

/-- A document holding only field `a`. -/
def docA : Doc := Doc.obj [("a", Doc.str "x")]

/-- A client over an index holding exactly `docA`. -/
def clientA : Client :=
  ⟨fun _ _ => ⟨[⟨docA⟩]⟩, fun _ => 1, fun _ _ => respAllNull⟩

/-- The proxy over the `a`, `b` schema. -/
def dfAB : DataFrame := ⟨clientA, "test_ab", mAB, []⟩

/-- The reconciled row `head` produces for `docA` under the `a`, `b`
schema: `b` is null-filled. -/
def rowAB : List (String × Option Doc) :=
  [("a", some (Doc.str "x")), ("b", none)]

/-- Witness for C5: `b` is in the schema, absent from the only document,
and present as null in the produced row. -/
theorem head_null_fill_witness : ("b", (none : Option Doc)) ∈ rowAB :=
  head_null_fill dfAB 5 "b" (by decide)
    (fun hit hhit => by
      have h := List.mem_singleton.mp hhit
      subst h
      rfl)
    rowAB (List.mem_singleton_self rowAB)

/-- C7: `shape` is the external collaborator's total document count paired
with the number of projectable fields, and is unchanged by how many rows
`head` was asked to fetch. -/
theorem shape_consistency (df : DataFrame) :
    df.shape = (df.client.count df.index_pattern,
        df.mappings.source_fields.length) ∧
      ∀ n : Nat, ((df.head_st n).2).shape = df.shape :=
  ⟨rfl, fun _ => rfl⟩

/-- Membership in the describe result: a field whose statistics are not all
null is kept, with its eight values. -/
theorem mem_describeResults (resp : AggResponse) (fields : List String)
    (field : String) (hf : field ∈ fields)
    (h : (statsValues resp field).count none < (statsValues resp field).length) :
    (field, statsValues resp field) ∈ describeResults resp fields := by
  apply List.mem_filterMap.mpr
  exact ⟨field, hf, by simp [h]⟩

/-- C1 counterexample: for the aggregation response in which `rating` has
`count = 0` and the seven other statistics null, the statistics table
returned by `describe` DOES contain a `rating` column — `count = 0` is not
null, so `values.count(None) < len(values)` holds and the column is kept. -/
theorem describe_count_zero_kept_ce :
    statsValues respRatingCountZero "rating" =
        [some 0, none, none, none, none, none, none, none] ∧
      "rating" ∈ ((dfRatingCountZero.describe).1.map Prod.fst) := by
  constructor
  · rfl
  · show "rating" ∈ ["rating"]
    exact List.mem_singleton_self _

/-- C1 amended: a numeric field whose aggregation response has `count = 0`
and every other statistic null is NOT dropped: the statistics table contains
its column (a column is dropped only when all eight statistics are null). -/
theorem describe_count_zero_column_present (df : DataFrame) (field : String)
    (hf : field ∈ df.mappings.numeric_source_fields)
    (hv : statsValues
        (df.client.execute df.index_pattern
          (buildStatsRequest df.mappings.numeric_source_fields)) field =
      [some 0, none, none, none, none, none, none, none]) :
    field ∈ ((df.describe).1.map Prod.fst) := by
  have hcount : (statsValues
      (df.client.execute df.index_pattern
        (buildStatsRequest df.mappings.numeric_source_fields)) field).count none <
      (statsValues
        (df.client.execute df.index_pattern
          (buildStatsRequest df.mappings.numeric_source_fields)) field).length := by
    rw [hv]; decide
  exact List.mem_map.mpr
    ⟨_, mem_describeResults _ df.mappings.numeric_source_fields field hf hcount, rfl⟩

/-- Witness for the amended C1. -/
theorem describe_count_zero_column_present_witness :
    "rating" ∈ ((dfRatingCountZero.describe).1.map Prod.fst) :=
  describe_count_zero_column_present dfRatingCountZero "rating" (by decide) rfl

/-- The column names a subscript requests, when it is one of the two
projection forms (`df['a']`, `df['a','b']`) of `__getitem__`. -/
def projectionNames : Item → List String
  | Item.str s => [s]
  | Item.tuple ss => ss
  | Item.int _ => []
  | Item.list _ => []

/-- C2: a column-subset projection that requests at least one name that is
not a projectable field fails with `UnknownColumnError` (realised as
`TypeError('Column does not exist')` for the single-string form) and issues
no external query call. -/
theorem getitem_unknown_column_rejected (df : DataFrame) (item : Item)
    (h : ∃ c ∈ projectionNames item, df.mappings.is_source_field c = false) :
    ∃ c, df.mappings.is_source_field c = false ∧
      df.getitem item = (Except.error (Err.unknownColumn c), []) := by
  match item with
  | Item.str s =>
    obtain ⟨c, hc, hbad⟩ := h
    have hcs : c = s := by simpa [projectionNames] using hc
    subst hcs
    exact ⟨c, hbad, by simp [DataFrame.getitem, hbad]⟩
  | Item.tuple ss =>
    obtain ⟨c, hc, hbad⟩ := h
    have hc2 : c ∈ ss := by simpa [projectionNames] using hc
    have hsome : (ss.find? (fun c => !(df.mappings.is_source_field c))).isSome :=
      List.find?_isSome.mpr ⟨c, hc2, by simp [hbad]⟩
    obtain ⟨c0, hc0⟩ := Option.isSome_iff_exists.mp hsome
    have hprop := List.find?_some hc0
    have hpos : 0 < ss.length := List.length_pos.mpr (List.ne_nil_of_mem hc2)
    refine ⟨c0, by simpa using hprop, ?_⟩
    simp [DataFrame.getitem, Mappings.narrow, hc0, hpos]
  | Item.int n => simp [projectionNames] at h
  | Item.list l => simp [projectionNames] at h

/-- Witness for C2: projecting a nonexistent field is rejected without a
query. -/
theorem getitem_unknown_column_rejected_witness :
    ∃ c, dfGroup.mappings.is_source_field c = false ∧
      dfGroup.getitem (Item.str "nonexistent_field") =
        (Except.error (Err.unknownColumn c), []) :=
  getitem_unknown_column_rejected dfGroup (Item.str "nonexistent_field")
    ⟨"nonexistent_field", by decide, by decide⟩

/-- C8: no accessor mutates the proxy — each state-transformer reading
returns the proxy unchanged — and a successful single-column projection
returns a new proxy that shares the client and dataset locator, has a fresh
empty operation list, and holds the narrowed schema. -/
theorem accessors_do_not_mutate (df : DataFrame) (n : Nat) (item : Item)
    (s : String) (p : DataFrame)
    (h : (df.getitem (Item.str s)).1 = Except.ok (some p)) :
    (df.head_st n).2 = df ∧ (df.describe_st).2 = df ∧ (df.shape_st).2 = df ∧
      (df.getitem_st item).2 = df ∧
      p.client = df.client ∧ p.index_pattern = df.index_pattern ∧
      p.operations = [] ∧ df.mappings.narrow [s] = Except.ok p.mappings := by
  refine ⟨rfl, rfl, rfl, rfl, ?_⟩
  by_cases hs : df.mappings.is_source_field s = true
  · have hfind : [s].find? (fun c => !(df.mappings.is_source_field c)) = none := by
      simp [List.find?, hs]
    have hnarrow : df.mappings.narrow [s] =
        Except.ok ⟨df.mappings.fields.filter (fun q => [s].contains q.1)⟩ := by
      simp [Mappings.narrow, hfind]
    simp only [DataFrame.getitem, hs, Bool.not_true, Bool.false_eq_true,
      if_false, hnarrow, List.length_singleton, zero_lt_one, if_true,
      Except.ok.injEq, Option.some.injEq] at h
    subst h
    exact ⟨rfl, rfl, rfl, hnarrow⟩
  · rw [Bool.not_eq_true] at hs
    simp [DataFrame.getitem, hs] at h

/-- The proxy produced by projecting `dfGroup` to its `group` column. -/
def dfGroupProj : DataFrame :=
  ⟨clientGroup, "reviews", ⟨[("group", descKeyword)]⟩, []⟩

/-- Witness for C8 at the nested example. -/
theorem accessors_do_not_mutate_witness :
    (dfGroup.head_st 3).2 = dfGroup ∧ (dfGroup.describe_st).2 = dfGroup ∧
      (dfGroup.shape_st).2 = dfGroup ∧
      (dfGroup.getitem_st (Item.int 7)).2 = dfGroup ∧
      dfGroupProj.client = dfGroup.client ∧
      dfGroupProj.index_pattern = dfGroup.index_pattern ∧
      dfGroupProj.operations = [] ∧
      dfGroup.mappings.narrow ["group"] = Except.ok dfGroupProj.mappings :=
  accessors_do_not_mutate dfGroup 3 (Item.int 7) "group" dfGroupProj rfl

/-- C9: deleting a model the store reports as missing (404 not-found) is a
success no-op: `delete_model` returns normally. -/
theorem delete_model_notfound_noop (m : MLModel)
    (h : m._client.deleteTrainedModelRaw m._model_id =
      Except.error ESErr.notFound) :
    m.delete_model = Except.ok () := by
  simp [MLModel.delete_model, deleteTrainedModel, h, ESErr.status]

/-- A client whose delete endpoint always reports not-found. -/
def mlClientMissing : MLClient := ⟨fun _ => Except.error ESErr.notFound⟩

/-- A handle to a model that does not exist. -/
def mlModelMissing : MLModel := ⟨mlClientMissing, "missing_model"⟩

/-- Witness for C9. -/
theorem delete_model_notfound_noop_witness :
    mlModelMissing.delete_model = Except.ok () :=
  delete_model_notfound_noop mlModelMissing rfl

/-- C10: a subscript that is neither a string nor a tuple (an integer or a
list) makes `__getitem__` return `None`: no error, no external query, no new
proxy. -/
theorem getitem_unsupported_returns_none (df : DataFrame) (n : Int)
    (l : List String) :
    df.getitem (Item.int n) = (Except.ok none, []) ∧
      df.getitem (Item.list l) = (Except.ok none, []) :=
  ⟨rfl, rfl⟩

end Eland
